import Mathlib

/-!
Verification of the K8intel monitoring agent (`agent.py`) against its
natural-language specification.  The agent's operations are shallowly
embedded: numeric values are rationals, machine effects (HTTP posts,
clock reads, cluster listings) are threaded explicitly as oracles or
inputs, and fallible code returns `Option` / an explicit outcome type.
-/

namespace K8IntelAgent

/-! ## Wire payload types (section 3 of the spec) -/

/-- Alert severity levels used by the agent. -/
inductive Severity
  | Info
  | Warning
  | Critical
deriving DecidableEq, Repr

/-- Payload `{clusterId, metricType, value}` posted to `POST {base}/metrics`. -/
structure MetricSubmission where
  clusterId : Int
  metricType : String
  value : ℚ
deriving DecidableEq, Repr

/-- Payload `{clusterId, severity, message}` posted to `POST {base}/alerts`. -/
structure AlertSubmission where
  clusterId : Int
  severity : Severity
  message : String
deriving DecidableEq, Repr

/-- One node entry of the inventory payload (`nodes_dto` in `agent.py`). -/
structure NodeInfo where
  name : String
  status : String
  kubeletVersion : String
  osImage : String
  id : Int
  clusterId : Int
deriving DecidableEq, Repr

/-- One pod entry of the inventory payload (`pods_dto` in `agent.py`). -/
structure PodInfo where
  name : String
  «namespace» : String
  status : String
  nodeId : Int
  image : String
  id : Int
  cpuRequest : ℚ
  memoryRequest : ℚ
deriving DecidableEq, Repr

/-- Payload `{nodes, pods}` posted to `POST {base}/k8s/clusters/{id}/inventory`. -/
structure InventoryPayload where
  nodes : List NodeInfo
  pods : List PodInfo
deriving DecidableEq, Repr

/-- One outbound submission attempted by the agent, in program order. -/
inductive Event
  | metric (m : MetricSubmission)
  | alert (a : AlertSubmission)
  | inventory (p : InventoryPayload)
deriving DecidableEq, Repr

/-! ## Decimal formatting helpers

`agent.py` builds alert messages with Python f-strings: `value:.2f` is
fixed two-decimal formatting and a bare `CPU_THRESHOLD` interpolation is
`str(float)`, which for decimally representable values prints the
shortest decimal expansion with at least one fractional digit. -/

/-- Floor of a nonnegative rational as an integer (`q.num / q.den`
truncates toward zero, which is the floor for `q ≥ 0`). -/
def ratFloor (q : ℚ) : Int :=
  q.num / (q.den : Int)

/-- Fixed two-decimal rendering of a nonnegative rational, as Python's
`f"{v:.2f}"` renders it (rounding at the second decimal). -/
def format2fNonneg (q : ℚ) : String :=
  let c := (ratFloor (q * 100 + 1 / 2)).toNat
  toString (c / 100) ++ "." ++ (if c % 100 < 10 then "0" else "") ++ toString (c % 100)

/-- Fixed two-decimal rendering of a rational (`f"{v:.2f}"`). -/
def format2f (q : ℚ) : String :=
  if q < 0 then "-" ++ format2fNonneg (-q) else format2fNonneg q

/-- Successive decimal digits of a fractional part `r ∈ [0, 1)`, stopping
when the remainder is zero; `fuel` bounds the expansion length. -/
def fracDigits : ℚ → Nat → List Nat
  | _, 0 => []
  | r, fuel + 1 =>
    if r = 0 then []
    else (ratFloor (r * 10)).toNat :: fracDigits (r * 10 - (ratFloor (r * 10) : ℚ)) fuel

/-- Concatenate a list of decimal digits into a string. -/
def digitsStr (ds : List Nat) : String :=
  String.join (ds.map (fun d => toString d))

/-- Python `str(float)` rendering of a nonnegative decimally representable
rational: integer part, a dot, then the fractional digits (at least "0"). -/
def pyFloatStrNonneg (q : ℚ) : String :=
  let ip := (ratFloor q).toNat
  let ds := fracDigits (q - (ratFloor q : ℚ)) 17
  toString ip ++ "." ++ (if ds.isEmpty then "0" else digitsStr ds)

/-- Python `str(float)` rendering of a decimally representable rational. -/
def pyFloatStr (q : ℚ) : String :=
  if q < 0 then "-" ++ pyFloatStrNonneg (-q) else pyFloatStrNonneg q

/-! ## Resilient Submitter (`post_to_api`, spec section 4.1)

`post_to_api` wraps one HTTP POST in `backoff.on_exception(backoff.expo,
RequestException, max_tries=5, giveup=λ e, e.response is not None and
400 ≤ status < 500, jitter=backoff.full_jitter)`.  One underlying POST
attempt is modelled by its observable outcome: success (status < 400,
`raise_for_status` does not raise), an HTTP error status (400-599), or a
network-layer error carrying no response. -/

/-- Outcome of one underlying POST attempt. -/
inductive AttemptResult
  | success
  | httpError (status : Nat)
  | netError
deriving DecidableEq, Repr

/-- The decorator's `giveup` predicate: stop retrying exactly when the
exception has a response whose status is a client error (4xx). -/
def giveup : AttemptResult → Bool
  | .httpError s => decide (400 ≤ s ∧ s < 500)
  | _ => false

/-- How `post_to_api` terminates: returning normally, or re-raising the
last exception once `giveup` holds or `max_tries` attempts were made. -/
inductive PostOutcome
  | ok
  | raised (e : AttemptResult)
deriving DecidableEq, Repr

/-- The retry loop of `backoff.on_exception` around one POST.  `oracle k`
is the outcome of the `k`-th underlying attempt; `u k ∈ [0,1]` is the
uniform draw used by `full_jitter` on the `k`-th backoff value `2 ^ k`
produced by `backoff.expo`.  Returns the terminal outcome, the number of
attempts made, and the list of backoff waits slept. -/
def backoffRun (oracle : Nat → AttemptResult) (u : Nat → ℚ) :
    Nat → Nat → PostOutcome × Nat × List ℚ
  | _, 0 => (.raised .netError, 0, [])
  | i, fuel + 1 =>
    match oracle i with
    | .success => (.ok, 1, [])
    | r =>
      if giveup r || fuel == 0 then (.raised r, 1, [])
      else
        let t := backoffRun oracle u (i + 1) fuel
        (t.1, t.2.1 + 1, u i * 2 ^ i :: t.2.2)

/-- The function `post_to_api` as observed through its attempt oracle: run the retry
loop with `max_tries = 5` starting at attempt 0. -/
def post_to_api (oracle : Nat → AttemptResult) (u : Nat → ℚ) :
    PostOutcome × Nat × List ℚ :=
  backoffRun oracle u 0 5

/-- A retryable failure in the sense of the spec: a network-layer error
or a server-side (5xx) HTTP error. -/
def RetryableFailure (r : AttemptResult) : Prop :=
  r = .netError ∨ ∃ s, r = .httpError s ∧ 500 ≤ s ∧ s < 600

/-! ## Metric Sampler (spec section 4.2, `main_loop` lines 204-228) -/

/-- Snapshot of `psutil.disk_io_counters()`: raw byte totals. -/
structure DiskIOCounters where
  read_bytes : Int
  write_bytes : Int
deriving DecidableEq, Repr

/-- Snapshot of `psutil.net_io_counters()`: raw byte totals. -/
structure NetIOCounters where
  bytes_sent : Int
  bytes_recv : Int
deriving DecidableEq, Repr

/-- One sampling cycle's derived reading (spec data model `Sample`). -/
structure Sample where
  cpuPercent : ℚ
  memoryPercent : ℚ
  diskReadRate : ℚ
  diskWriteRate : ℚ
  netSentRate : ℚ
  netRecvRate : ℚ
deriving DecidableEq, Repr

/-- The rate derivation of `main_loop`: counters are read before and after
the blocking CPU read, and each rate is end-counter minus start-counter. -/
def buildSample (cpu mem : ℚ) (d0 d1 : DiskIOCounters) (n0 n1 : NetIOCounters) : Sample :=
  { cpuPercent := cpu
    memoryPercent := mem
    diskReadRate := ((d1.read_bytes - d0.read_bytes : Int) : ℚ)
    diskWriteRate := ((d1.write_bytes - d0.write_bytes : Int) : ℚ)
    netSentRate := ((n1.bytes_sent - n0.bytes_sent : Int) : ℚ)
    netRecvRate := ((n1.bytes_recv - n0.bytes_recv : Int) : ℚ) }

/-! ## Alert Evaluator (spec section 4.3, `main_loop` lines 235-254) -/

/-- The configuration constants the loop reads: cluster id and the two
alert thresholds. -/
structure Config where
  clusterId : Int
  cpuThreshold : ℚ
  memoryThreshold : ℚ
deriving DecidableEq, Repr

/-- The `all_metrics` dictionary of `main_loop`, in insertion order. -/
def allMetrics (s : Sample) : List (String × ℚ) :=
  [("CPU", s.cpuPercent), ("Memory", s.memoryPercent),
   ("DiskReadBPS", s.diskReadRate), ("DiskWriteBPS", s.diskWriteRate),
   ("NetSentBPS", s.netSentRate), ("NetRecvBPS", s.netRecvRate)]

/-- The per-metric alert check of `main_loop`: the `if metric_type == "CPU"
and value > CPU_THRESHOLD ... elif metric_type == "Memory" and value >
MEMORY_THRESHOLD` chain, building the alert payload posted when it fires. -/
def checkAlert (cfg : Config) (metricType : String) (value : ℚ) : Option AlertSubmission :=
  if metricType = "CPU" ∧ value > cfg.cpuThreshold then
    some { clusterId := cfg.clusterId, severity := .Critical,
           message := "High CPU usage detected: " ++ format2f value ++
             "% (Threshold: " ++ pyFloatStr cfg.cpuThreshold ++ "%)" }
  else if metricType = "Memory" ∧ value > cfg.memoryThreshold then
    some { clusterId := cfg.clusterId, severity := .Warning,
           message := "High Memory usage detected: " ++ format2f value ++
             "% (Threshold: " ++ pyFloatStr cfg.memoryThreshold ++ "%)" }
  else none

/-- The Alert Evaluator: the alerts one cycle produces for a sample, in
the order the loop posts them. -/
def evaluate (cfg : Config) (s : Sample) : List AlertSubmission :=
  (allMetrics s).filterMap (fun p => checkAlert cfg p.1 p.2)

/-! ## Scheduler / Orchestrator (spec section 4.6, `main_loop` lines 200-266)

Each `post_to_api` call inside the metric loop either returns normally or
re-raises its final exception.  `outcome k` tells whether the `k`-th
post of the cycle's metric loop returns normally (`true`) or re-raises
(`false`).  A re-raised exception propagates out of the `for` loop to the
`except Exception` handler at the cycle boundary. -/

/-- The `for metric_type, value in all_metrics.items()` loop: post the
metric, then check-and-post its alert, for each metric in order.  Returns
the submissions attempted, whether the loop completed without an
exception escaping, and the number of posts consumed. -/
def metricLoop (cfg : Config) (outcome : Nat → Bool) :
    List (String × ℚ) → Nat → List Event × Bool × Nat
  | [], i => ([], true, i)
  | (t, v) :: rest, i =>
    let ev := Event.metric { clusterId := cfg.clusterId, metricType := t, value := v }
    if outcome i = false then ([ev], false, i + 1)
    else
      match checkAlert cfg t v with
      | none =>
        let r := metricLoop cfg outcome rest (i + 1)
        (ev :: r.1, r.2.1, r.2.2)
      | some a =>
        let aev := Event.alert a
        if outcome (i + 1) = false then ([ev, aev], false, i + 2)
        else
          let r := metricLoop cfg outcome rest (i + 2)
          (ev :: aev :: r.1, r.2.1, r.2.2)

/-- The submissions the metric loop makes when every post succeeds: each
metric submission immediately followed by its alert submission, if any. -/
def metricTraceFrom (cfg : Config) : List (String × ℚ) → List Event
  | [] => []
  | (t, v) :: rest =>
    Event.metric { clusterId := cfg.clusterId, metricType := t, value := v } ::
      (((checkAlert cfg t v).map Event.alert).toList ++ metricTraceFrom cfg rest)

/-- The scheduler clock state: `last_inventory_time`. -/
structure AgentState where
  last_inventory_time : ℚ
deriving DecidableEq, Repr

/-- The constant `inventory_interval = 300` of `main_loop`. -/
def inventory_interval : ℚ := 300

/-- One sampling cycle of `main_loop` after the sample is built: run the
metric loop; if it completed, check whether inventory is due and, when it
is, attempt the inventory submission (its own failures are contained
inside `report_cluster_inventory`) and record `now` as the new
`last_inventory_time`.  `inv` is the collected snapshot, `none` when the
cluster listing itself failed.  An exception escaping the metric loop is
caught by the cycle-boundary handler, so `tick` always returns and the
loop proceeds to the next cycle. -/
def tick (cfg : Config) (now : ℚ) (st : AgentState) (s : Sample)
    (inv : Option InventoryPayload) (outcome : Nat → Bool) : List Event × AgentState :=
  let r := metricLoop cfg outcome (allMetrics s) 0
  if r.2.1 = true ∧ now - st.last_inventory_time ≥ inventory_interval then
    (r.1 ++ (inv.map Event.inventory).toList, { last_inventory_time := now })
  else (r.1, st)

/-- The external inputs one cycle consumes: the clock value read at the
inventory check, the sample, the collected snapshot, and the per-post
outcomes. -/
structure CycleInput where
  now : ℚ
  sample : Sample
  inv : Option InventoryPayload
  outcome : Nat → Bool

/-- The loop `main_loop` over a finite prefix of cycles: every cycle runs `tick`
and the loop continues regardless of submission failures. -/
def mainLoopRun (cfg : Config) : List CycleInput → AgentState → List (List Event) × AgentState
  | [], st => ([], st)
  | c :: rest, st =>
    let r := tick cfg c.now st c.sample c.inv c.outcome
    let w := mainLoopRun cfg rest r.2
    (r.1 :: w.1, w.2)

/-! ## Inventory cadence (spec section 4.6, `main_loop` lines 197-260) -/

/-- The inventory due-check recurrence across cycles that reach it:
given the clock value of each cycle, fire when `now - last ≥ interval`
and then record `now` as the new `last`. -/
def inventoryFires (interval : ℚ) : ℚ → List ℚ → List Bool
  | _, [] => []
  | last, t :: ts =>
    if t - last ≥ interval then true :: inventoryFires interval t ts
    else false :: inventoryFires interval last ts

/-! ## Event Watcher (`watch_kubernetes_events`, spec section 4.5) -/

/-- The `involved_object` of a cluster event. -/
structure InvolvedObject where
  kind : String
  name : String
deriving DecidableEq, Repr

/-- A cluster event as the watcher reads it: `type`, `reason`, free-text
`message`, and the involved object. -/
structure V1Event where
  type : String
  reason : String
  message : String
  involved_object : InvolvedObject
deriving DecidableEq, Repr

/-- The routine-reason allow-list of `watch_kubernetes_events`. -/
def routineReasons : List String :=
  ["SuccessfulCreate", "SuccessfulDelete", "Pulled"]

/-- Processing of one received event: suppressed when its reason is
allow-listed, otherwise converted into exactly one alert submission. -/
def processEvent (clusterId : Int) (e : V1Event) : Option AlertSubmission :=
  if e.reason ∉ routineReasons then
    some { clusterId := clusterId,
           severity := if e.type = "Normal" then .Info else .Warning,
           message := "K8s Event: " ++ e.reason ++ " on " ++ e.involved_object.kind ++
             "/" ++ e.involved_object.name ++ " - " ++ e.message }
  else none

/-! ## Inventory Collector (`report_cluster_inventory`, spec section 4.4) -/

/-- A cluster node as listed: name, the types of its reported status
conditions in order, and node-info strings. -/
structure V1Node where
  name : String
  conditions : List String
  kubelet_version : String
  os_image : String
deriving DecidableEq, Repr

/-- A listed pod: name, namespace, phase, and its containers' images. -/
structure V1Pod where
  name : String
  «namespace» : String
  phase : String
  containers : List String
deriving DecidableEq, Repr

/-- The node dictionary built per node: `n.status.conditions[-1].type` is
the last condition type and raises `IndexError` on an empty list, which
aborts the whole snapshot. -/
def nodeDto (n : V1Node) : Option NodeInfo :=
  (n.conditions.getLast?).map (fun c =>
    { name := n.name, status := c, kubeletVersion := n.kubelet_version,
      osImage := n.os_image, id := 0, clusterId := 0 })

/-- The pod dictionary built per pod: `p.spec.containers[0].image` raises
on an empty container list; `cpuRequest` and `memoryRequest` are the
literal constant `0`. -/
def podDto (p : V1Pod) : Option PodInfo :=
  (p.containers.head?).map (fun img =>
    { name := p.name, «namespace» := p.«namespace», status := p.phase,
      nodeId := 0, image := img, id := 0, cpuRequest := 0, memoryRequest := 0 })

/-- The node list comprehension: sequential, first failure aborts. -/
def nodesDto : List V1Node → Option (List NodeInfo)
  | [] => some []
  | n :: rest =>
    match nodeDto n, nodesDto rest with
    | some d, some ds => some (d :: ds)
    | _, _ => none

/-- The per-namespace pod list comprehension: sequential, first failure
aborts. -/
def podsDto : List V1Pod → Option (List PodInfo)
  | [] => some []
  | p :: rest =>
    match podDto p, podsDto rest with
    | some d, some ds => some (d :: ds)
    | _, _ => none

/-- The `for ns in K8S_NAMESPACES_TO_SCAN` loop: list each namespace's
pods in order and extend `all_pods_dto` with them. -/
def allNamespacePods (podsOf : String → List V1Pod) : List String → Option (List PodInfo)
  | [] => some []
  | ns :: rest =>
    match podsDto (podsOf ns), allNamespacePods podsOf rest with
    | some ps, some qs => some (ps ++ qs)
    | _, _ => none

/-- The successful collection path of `report_cluster_inventory`: the payload
`{nodes: nodes_dto, pods: all_pods_dto}`, or `none` when any listing or
field access raised (the internal `except` then drops the snapshot). -/
def report_cluster_inventory (nodes : List V1Node) (namespaces : List String)
    (podsOf : String → List V1Pod) : Option InventoryPayload :=
  match nodesDto nodes, allNamespacePods podsOf namespaces with
  | some nd, some pd => some { nodes := nd, pods := pd }
  | _, _ => none

/-! ## Concrete instances used by witnesses and counterexamples -/

/-- Attempt oracle failing with HTTP 500 on the first three attempts. -/
def oracle1 : Nat → AttemptResult := fun k => if k < 3 then .httpError 500 else .success

/-- A concrete jitter draw sequence. -/
def u1 : Nat → ℚ := fun _ => 1 / 2

/-- Attempt oracle always failing with HTTP 404. -/
def oracle2 : Nat → AttemptResult := fun _ => .httpError 404

/-- A concrete jitter draw sequence. -/
def u2 : Nat → ℚ := fun _ => 0

/-- A concrete configuration with the default thresholds. -/
def cfgEx : Config := ⟨1, 90, 85⟩

/-- A concrete sample whose readings are all below the thresholds. -/
def sampleEx : Sample := ⟨50, 50, 0, 0, 0, 0⟩

/-- A concrete sample with CPU at 95 percent. -/
def sample95 : Sample := ⟨95, 50, 0, 0, 0, 0⟩

/-- Post outcomes where exactly the first post of the cycle fails
terminally and every later post would succeed. -/
def outcomeFailCPU : Nat → Bool := fun i => !(i == 0)

/-- Concrete disk counters before a sampling window. -/
def d0Ex : DiskIOCounters := ⟨100, 200⟩

/-- Concrete disk counters after a sampling window. -/
def d1Ex : DiskIOCounters := ⟨140, 260⟩

/-- Concrete network counters before a sampling window. -/
def n0Ex : NetIOCounters := ⟨30, 40⟩

/-- Concrete network counters after a sampling window. -/
def n1Ex : NetIOCounters := ⟨37, 49⟩

/-- A routine cluster event (allow-listed reason). -/
def evCreate : V1Event := ⟨"Normal", "SuccessfulCreate", "Created pod web-1", ⟨"ReplicaSet", "rs-1"⟩⟩

/-- A noteworthy cluster event with reason "Failed" and type "Warning". -/
def evFailed : V1Event :=
  ⟨"Warning", "Failed", "Back-off restarting failed container", ⟨"Pod", "web-1"⟩⟩

/-- A concrete node listing. -/
def nodesEx : List V1Node := [⟨"node-a", ["MemoryPressure", "Ready"], "v1.29.0", "Ubuntu 22.04"⟩]

/-- A concrete per-namespace pod listing. -/
def podsOfEx : String → List V1Pod := fun ns =>
  if ns = "default" then [⟨"web-1", "default", "Running", ["nginx:1.25"]⟩]
  else [⟨"dns-1", "kube-system", "Running", ["coredns:1.11"]⟩]

/-- The default namespace scan set. -/
def nssEx : List String := ["default", "kube-system"]

/-- The snapshot the concrete listings produce. -/
def invEx : InventoryPayload :=
  ⟨[⟨"node-a", "Ready", "v1.29.0", "Ubuntu 22.04", 0, 0⟩],
   [⟨"web-1", "default", "Running", 0, "nginx:1.25", 0, 0, 0⟩,
    ⟨"dns-1", "kube-system", "Running", 0, "coredns:1.11", 0, 0, 0⟩]⟩

/-- The first pod entry of the concrete snapshot. -/
def podEx1 : PodInfo := ⟨"web-1", "default", "Running", 0, "nginx:1.25", 0, 0, 0⟩

/-! ## Lemmas about the retry loop -/

lemma retryable_not_success (r : AttemptResult) (h : RetryableFailure r) :
    r ≠ AttemptResult.success ∧ giveup r = false := by
  rcases h with h | ⟨s, hs, h5, _⟩
  · subst h; exact ⟨by simp, rfl⟩
  · subst hs
    refine ⟨by simp, ?_⟩
    simp only [giveup, decide_eq_false_iff_not]
    omega

lemma backoffRun_succ_success (oracle : Nat → AttemptResult) (u : Nat → ℚ) (i fuel : Nat)
    (h : oracle i = AttemptResult.success) :
    backoffRun oracle u i (fuel + 1) = (PostOutcome.ok, 1, []) := by
  simp [backoffRun, h]

lemma backoffRun_succ_retry (oracle : Nat → AttemptResult) (u : Nat → ℚ) (i fuel : Nat)
    (h : RetryableFailure (oracle i)) :
    backoffRun oracle u i (fuel + 2) =
      ((backoffRun oracle u (i + 1) (fuel + 1)).1,
        (backoffRun oracle u (i + 1) (fuel + 1)).2.1 + 1,
        u i * 2 ^ i :: (backoffRun oracle u (i + 1) (fuel + 1)).2.2) := by
  obtain ⟨hns, hg⟩ := retryable_not_success _ h
  rcases hr : oracle i with _ | s | _
  · exact absurd hr hns
  · rw [hr] at hg
    simp [backoffRun, hr, hg]
  · rw [hr] at hg
    simp [backoffRun, hr, hg]

lemma backoffRun_success_after (oracle : Nat → AttemptResult) (u : Nat → ℚ) :
    ∀ n i fuel, (∀ k, k < n → RetryableFailure (oracle (i + k))) →
      oracle (i + n) = AttemptResult.success → n < fuel →
      (backoffRun oracle u i fuel).1 = PostOutcome.ok ∧
        (backoffRun oracle u i fuel).2.1 = n + 1 := by
  intro n
  induction n with
  | zero =>
    intro i fuel _ hs hf
    obtain ⟨f, rfl⟩ : ∃ f, fuel = f + 1 := ⟨fuel - 1, by omega⟩
    rw [backoffRun_succ_success oracle u i f (by simpa using hs)]
    exact ⟨rfl, rfl⟩
  | succ n ih =>
    intro i fuel hk hs hf
    obtain ⟨f, rfl⟩ : ∃ f, fuel = f + 2 := ⟨fuel - 2, by omega⟩
    rw [backoffRun_succ_retry oracle u i f (by simpa using hk 0 (by omega))]
    have hk' : ∀ k, k < n → RetryableFailure (oracle (i + 1 + k)) := by
      intro k hlt
      have e : i + 1 + k = i + (k + 1) := by omega
      rw [e]
      exact hk (k + 1) (by omega)
    have hs' : oracle (i + 1 + n) = AttemptResult.success := by
      have e : i + 1 + n = i + (n + 1) := by omega
      rw [e]; exact hs
    have := ih (i + 1) (f + 1) hk' hs' (by omega)
    exact ⟨this.1, by rw [this.2]⟩

lemma backoffRun_attempts_le (oracle : Nat → AttemptResult) (u : Nat → ℚ) :
    ∀ fuel i, (backoffRun oracle u i fuel).2.1 ≤ fuel := by
  intro fuel
  induction fuel with
  | zero => intro i; simp [backoffRun]
  | succ f ih =>
    intro i
    rcases hr : oracle i with _ | s | _ <;> simp only [backoffRun, hr]
    · omega
    · split
      · dsimp only; omega
      · have := ih (i + 1)
        dsimp only
        omega
    · split
      · dsimp only; omega
      · have := ih (i + 1)
        dsimp only
        omega

lemma backoffRun_waits (oracle : Nat → AttemptResult) (u : Nat → ℚ) :
    ∀ fuel i k w, ((backoffRun oracle u i fuel).2.2)[k]? = some w →
      w = u (i + k) * 2 ^ (i + k) := by
  intro fuel
  induction fuel with
  | zero => intro i k w h; simp [backoffRun] at h
  | succ f ih =>
    intro i k w h
    rcases hr : oracle i with _ | s | _
    · simp [backoffRun, hr] at h
    · simp only [backoffRun, hr] at h
      revert h
      split
      · intro h; simp at h
      · cases k with
        | zero => intro h; simp_all
        | succ k =>
          intro h
          simp only [List.getElem?_cons_succ] at h
          have := ih (i + 1) k w h
          have e : i + 1 + k = i + (k + 1) := by omega
          rwa [e] at this
    · simp only [backoffRun, hr] at h
      revert h
      split
      · intro h; simp at h
      · cases k with
        | zero => intro h; simp_all
        | succ k =>
          intro h
          simp only [List.getElem?_cons_succ] at h
          have := ih (i + 1) k w h
          have e : i + 1 + k = i + (k + 1) := by omega
          rwa [e] at this

/-! ## Claim theorems: the Resilient Submitter -/

/-- C1: a `post_to_api` call whose underlying POST fails with a 5xx or
network-layer error on the first three attempts and succeeds on the
fourth completes as overall success with exactly 4 attempts; in general
at most 5 attempts are ever made, and each retry wait is a full-jitter
draw within the exponential bound `[0, 2 ^ k]`. -/
theorem post_to_api_retry_policy :
    (∀ oracle u, (∀ k, k < 3 → RetryableFailure (oracle k)) →
      oracle 3 = AttemptResult.success →
      (post_to_api oracle u).1 = PostOutcome.ok ∧ (post_to_api oracle u).2.1 = 4)
    ∧ (∀ oracle u, (post_to_api oracle u).2.1 ≤ 5)
    ∧ (∀ oracle u, (∀ k, 0 ≤ u k ∧ u k ≤ 1) →
        ∀ (k : Nat) (w : ℚ), ((post_to_api oracle u).2.2)[k]? = some w →
          0 ≤ w ∧ w ≤ 2 ^ k) := by
  refine ⟨?_, ?_, ?_⟩
  · intro oracle u hk hs
    have := backoffRun_success_after oracle u 3 0 5 (by simpa using hk) (by simpa using hs)
      (by omega)
    exact this
  · intro oracle u
    exact backoffRun_attempts_le oracle u 5 0
  · intro oracle u hu k w hw
    have := backoffRun_waits oracle u 5 0 k w hw
    rw [this]
    simp only [Nat.zero_add]
    constructor
    · exact mul_nonneg (hu k).1 (by positivity)
    · calc u k * 2 ^ k ≤ 1 * 2 ^ k :=
            mul_le_mul_of_nonneg_right (hu k).2 (by positivity)
      _ = 2 ^ k := one_mul _

/-- C1 witness: the policy applied to a concrete oracle that fails with
HTTP 500 three times then succeeds. -/
theorem post_to_api_retry_policy_witness :
    (post_to_api oracle1 u1).1 = PostOutcome.ok ∧ (post_to_api oracle1 u1).2.1 = 4 ∧
      (post_to_api oracle1 u1).2.1 ≤ 5 ∧
      (0 ≤ (1 : ℚ) / 2 ∧ (1 : ℚ) / 2 ≤ 2 ^ 0) := by
  have h3 : ∀ k, k < 3 → RetryableFailure (oracle1 k) := by
    intro k hk
    exact Or.inr ⟨500, by simp [oracle1, hk], by norm_num, by norm_num⟩
  have hs : oracle1 3 = AttemptResult.success := rfl
  have hu : ∀ k, 0 ≤ u1 k ∧ u1 k ≤ 1 := by
    intro k; constructor <;> norm_num [u1]
  have hw : ((post_to_api oracle1 u1).2.2)[0]? = some ((1 : ℚ) / 2) := by
    norm_num [post_to_api, backoffRun, oracle1, u1, giveup]
  exact ⟨(post_to_api_retry_policy.1 oracle1 u1 h3 hs).1,
    (post_to_api_retry_policy.1 oracle1 u1 h3 hs).2,
    post_to_api_retry_policy.2.1 oracle1 u1,
    post_to_api_retry_policy.2.2 oracle1 u1 hu 0 ((1 : ℚ) / 2) hw⟩

/-- C2: a `post_to_api` call whose first underlying POST fails with a
client-side (4xx) error re-raises immediately: overall failure after
exactly 1 attempt, no retry, no backoff wait. -/
theorem post_to_api_client_error_no_retry (oracle : Nat → AttemptResult) (u : Nat → ℚ)
    (s : Nat) (h : oracle 0 = AttemptResult.httpError s) (h4 : 400 ≤ s) (h5 : s < 500) :
    post_to_api oracle u =
      (PostOutcome.raised (AttemptResult.httpError s), 1, []) := by
  have hg : giveup (AttemptResult.httpError s) = true := by
    simp only [giveup, decide_eq_true_eq]
    omega
  simp [post_to_api, backoffRun, h, hg]

/-- C2 witness: a call that fails with a simulated 404 is reported as
overall failure after exactly 1 attempt. -/
theorem post_to_api_client_error_no_retry_witness :
    post_to_api oracle2 u2 =
      (PostOutcome.raised (AttemptResult.httpError 404), 1, []) :=
  post_to_api_client_error_no_retry oracle2 u2 404 rfl (by norm_num) (by norm_num)

/-! ## Lemmas about formatting and the alert evaluator -/

lemma format2f_95 : format2f 95 = "95.00" := by
  norm_num [format2f, format2fNonneg, ratFloor]
  rfl

lemma pyFloatStr_90 : pyFloatStr 90 = "90.0" := by
  norm_num [pyFloatStr, pyFloatStrNonneg, ratFloor, fracDigits, digitsStr]
  rfl

lemma checkAlert_cpu (cfg : Config) (v : ℚ) :
    checkAlert cfg "CPU" v =
      if v > cfg.cpuThreshold then
        some { clusterId := cfg.clusterId, severity := .Critical,
               message := "High CPU usage detected: " ++ format2f v ++
                 "% (Threshold: " ++ pyFloatStr cfg.cpuThreshold ++ "%)" }
      else none := by
  simp [checkAlert]

lemma checkAlert_memory (cfg : Config) (v : ℚ) :
    checkAlert cfg "Memory" v =
      if v > cfg.memoryThreshold then
        some { clusterId := cfg.clusterId, severity := .Warning,
               message := "High Memory usage detected: " ++ format2f v ++
                 "% (Threshold: " ++ pyFloatStr cfg.memoryThreshold ++ "%)" }
      else none := by
  simp [checkAlert]

lemma checkAlert_other (cfg : Config) (t : String) (v : ℚ)
    (h1 : t ≠ "CPU") (h2 : t ≠ "Memory") : checkAlert cfg t v = none := by
  simp [checkAlert, h1, h2]

lemma evaluate_eq (cfg : Config) (s : Sample) :
    evaluate cfg s =
      (if s.cpuPercent > cfg.cpuThreshold then
        [{ clusterId := cfg.clusterId, severity := Severity.Critical,
           message := "High CPU usage detected: " ++ format2f s.cpuPercent ++
             "% (Threshold: " ++ pyFloatStr cfg.cpuThreshold ++ "%)" }] else [])
      ++ (if s.memoryPercent > cfg.memoryThreshold then
        [{ clusterId := cfg.clusterId, severity := Severity.Warning,
           message := "High Memory usage detected: " ++ format2f s.memoryPercent ++
             "% (Threshold: " ++ pyFloatStr cfg.memoryThreshold ++ "%)" }] else []) := by
  by_cases hc : s.cpuPercent > cfg.cpuThreshold <;>
    by_cases hm : s.memoryPercent > cfg.memoryThreshold <;>
      simp [evaluate, allMetrics, checkAlert_cpu, checkAlert_memory,
        checkAlert_other, hc, hm]

/-! ## Claim theorem: the Alert Evaluator -/

/-- C4: alert evaluation produces a Critical CPU alert exactly when
`cpuPercent > CPU_THRESHOLD` and a Warning Memory alert exactly when
`memoryPercent > MEMORY_THRESHOLD`, in that order, with no other metric
alerting, and each message embeds the two-decimal value and the
threshold; a sample with CPU 95 under threshold 90 yields exactly one
Critical alert whose message mentions "95.00" and "90.0", and a 50/50
sample under default thresholds yields no alerts. -/
theorem main_loop_alert_evaluation (cfg : Config) (s : Sample) :
    evaluate cfg s =
      (if s.cpuPercent > cfg.cpuThreshold then
        [{ clusterId := cfg.clusterId, severity := Severity.Critical,
           message := "High CPU usage detected: " ++ format2f s.cpuPercent ++
             "% (Threshold: " ++ pyFloatStr cfg.cpuThreshold ++ "%)" }] else [])
      ++ (if s.memoryPercent > cfg.memoryThreshold then
        [{ clusterId := cfg.clusterId, severity := Severity.Warning,
           message := "High Memory usage detected: " ++ format2f s.memoryPercent ++
             "% (Threshold: " ++ pyFloatStr cfg.memoryThreshold ++ "%)" }] else [])
    ∧ (s.cpuPercent = 95 → cfg.cpuThreshold = 90 →
        (evaluate cfg s).countP (fun a => a.severity == Severity.Critical) = 1 ∧
        ∀ a ∈ evaluate cfg s, a.severity = Severity.Critical →
          a.message = "High CPU usage detected: 95.00% (Threshold: 90.0%)")
    ∧ (s.cpuPercent = 50 → s.memoryPercent = 50 → cfg.cpuThreshold = 90 →
        cfg.memoryThreshold = 85 → evaluate cfg s = []) := by
  have hmain := evaluate_eq cfg s
  refine ⟨hmain, ?_, ?_⟩
  · intro h95 h90
    rw [hmain, h95, h90, format2f_95, pyFloatStr_90]
    rw [if_pos (by norm_num)]
    by_cases hm : s.memoryPercent > cfg.memoryThreshold <;>
      simp [hm, List.countP_cons]
  · intro hc hm h90 h85
    rw [hmain, hc, hm, h90, h85]
    norm_num

/-- C4 witness: the evaluator applied to concrete samples under the
default thresholds. -/
theorem main_loop_alert_evaluation_witness :
    ((evaluate cfgEx sample95).countP (fun a => a.severity == Severity.Critical) = 1 ∧
      ∀ a ∈ evaluate cfgEx sample95, a.severity = Severity.Critical →
        a.message = "High CPU usage detected: 95.00% (Threshold: 90.0%)") ∧
    evaluate cfgEx sampleEx = [] :=
  ⟨(main_loop_alert_evaluation cfgEx sample95).2.1 rfl rfl,
   (main_loop_alert_evaluation cfgEx sampleEx).2.2 rfl rfl rfl rfl⟩

/-! ## Lemmas about the cycle's metric loop -/

lemma metricLoop_all_success (cfg : Config) :
    ∀ l i, (metricLoop cfg (fun _ => true) l i).1 = metricTraceFrom cfg l := by
  intro l
  induction l with
  | nil => intro i; rfl
  | cons p rest ih =>
    intro i
    obtain ⟨t, v⟩ := p
    cases hca : checkAlert cfg t v <;>
      simp [metricLoop, metricTraceFrom, hca, ih]

lemma metricLoop_prefixOf (cfg : Config) (outcome : Nat → Bool) :
    ∀ l i, (metricLoop cfg outcome l i).1 <+: metricTraceFrom cfg l := by
  intro l
  induction l with
  | nil => intro i; simp [metricLoop, metricTraceFrom]
  | cons p rest ih =>
    intro i
    obtain ⟨t, v⟩ := p
    by_cases ho : outcome i = false
    · simp only [metricLoop, ho, if_pos]
      exact ⟨_, rfl⟩
    · have ho' : outcome i = true := by
        cases h : outcome i
        · exact absurd h ho
        · rfl
      cases hca : checkAlert cfg t v
      · simp only [metricLoop, ho', hca, Bool.true_eq_false, if_neg, not_false_iff]
        obtain ⟨tl, htl⟩ := ih (i + 1)
        exact ⟨tl, by simp [metricTraceFrom, hca, htl]⟩
      · by_cases ho2 : outcome (i + 1) = false
        · simp only [metricLoop, ho', ho2, hca, Bool.true_eq_false, if_neg,
            not_false_iff, if_pos]
          exact ⟨metricTraceFrom cfg rest, by simp [metricTraceFrom, hca]⟩
        · have ho2' : outcome (i + 1) = true := by
            cases h : outcome (i + 1)
            · exact absurd h ho2
            · rfl
          simp only [metricLoop, ho', ho2', hca, Bool.true_eq_false, if_neg,
            not_false_iff]
          obtain ⟨tl, htl⟩ := ih (i + 2)
          exact ⟨tl, by simp [metricTraceFrom, hca, htl]⟩

/-! ## Claim theorem: submission ordering within a cycle -/

/-- C5: within one sampling cycle the submissions are ordered CPU,
Memory, DiskReadBPS, DiskWriteBPS, NetSentBPS, NetRecvBPS, each metric's
alert (when it fires) posted immediately after that metric's submission
and before the next metric's; under terminal post failures the attempted
sequence is a prefix of this order, never a reordering. -/
theorem cycle_ordering (cfg : Config) (s : Sample) :
    (metricLoop cfg (fun _ => true) (allMetrics s) 0).1 =
      Event.metric ⟨cfg.clusterId, "CPU", s.cpuPercent⟩ ::
        (((checkAlert cfg "CPU" s.cpuPercent).map Event.alert).toList ++
        (Event.metric ⟨cfg.clusterId, "Memory", s.memoryPercent⟩ ::
          (((checkAlert cfg "Memory" s.memoryPercent).map Event.alert).toList ++
          (Event.metric ⟨cfg.clusterId, "DiskReadBPS", s.diskReadRate⟩ ::
            (((checkAlert cfg "DiskReadBPS" s.diskReadRate).map Event.alert).toList ++
            (Event.metric ⟨cfg.clusterId, "DiskWriteBPS", s.diskWriteRate⟩ ::
              (((checkAlert cfg "DiskWriteBPS" s.diskWriteRate).map Event.alert).toList ++
              (Event.metric ⟨cfg.clusterId, "NetSentBPS", s.netSentRate⟩ ::
                (((checkAlert cfg "NetSentBPS" s.netSentRate).map Event.alert).toList ++
                (Event.metric ⟨cfg.clusterId, "NetRecvBPS", s.netRecvRate⟩ ::
                  ((checkAlert cfg "NetRecvBPS" s.netRecvRate).map
                    Event.alert).toList))))))))))
    ∧ ∀ outcome, (metricLoop cfg outcome (allMetrics s) 0).1 <+:
        (metricLoop cfg (fun _ => true) (allMetrics s) 0).1 := by
  constructor
  · rw [metricLoop_all_success cfg (allMetrics s) 0]
    rfl
  · intro outcome
    rw [metricLoop_all_success cfg (allMetrics s) 0]
    exact metricLoop_prefixOf cfg outcome (allMetrics s) 0

/-! ## Claim theorems: terminal submission failure in a cycle -/

/-- C3 counterexample: with inventory due and every later post bound to
succeed, a terminal failure of the CPU metric submission leaves the
cycle's attempted submissions at just that one event — the Memory
submission and the due inventory submission never happen. -/
theorem submission_failure_counterexample :
    (tick cfgEx 1000 ⟨0⟩ sampleEx (some ⟨[], []⟩) outcomeFailCPU).1 =
      [Event.metric ⟨1, "CPU", 50⟩] ∧
    Event.metric ⟨1, "Memory", 50⟩ ∉
      (tick cfgEx 1000 ⟨0⟩ sampleEx (some ⟨[], []⟩) outcomeFailCPU).1 ∧
    (∀ p, Event.inventory p ∉
      (tick cfgEx 1000 ⟨0⟩ sampleEx (some ⟨[], []⟩) outcomeFailCPU).1) ∧
    (1000 : ℚ) - (0 : ℚ) ≥ inventory_interval := by
  have h : (tick cfgEx 1000 ⟨0⟩ sampleEx (some ⟨[], []⟩) outcomeFailCPU).1 =
      [Event.metric ⟨1, "CPU", 50⟩] := by decide
  refine ⟨h, ?_, ?_, by norm_num [inventory_interval]⟩
  · rw [h]; simp
  · intro p; rw [h]; simp

/-- C3 amended: a terminal submission failure is caught at the cycle
boundary, so the loop always proceeds to the next cycle, but the rest of
the failing cycle is skipped: when the CPU metric post re-raises, the
cycle's attempted submissions stop at that event and the inventory check
(and `last_inventory_time` update) does not happen. -/
theorem submission_failure_containment :
    (∀ cfg inputs st, ((mainLoopRun cfg inputs st).1).length = inputs.length)
    ∧ (∀ cfg (now : ℚ) st s inv outcome, outcome 0 = false →
        (tick cfg now st s inv outcome).1 =
          [Event.metric ⟨cfg.clusterId, "CPU", s.cpuPercent⟩] ∧
        (tick cfg now st s inv outcome).2 = st) := by
  constructor
  · intro cfg inputs
    induction inputs with
    | nil => intro st; rfl
    | cons c rest ih =>
      intro st
      simp [mainLoopRun, ih]
  · intro cfg now st s inv outcome h
    constructor <;> simp [tick, metricLoop, allMetrics, h]

/-- C3 amended witness: the contained failure at a concrete cycle. -/
theorem submission_failure_containment_witness :
    (tick cfgEx 1000 ⟨0⟩ sampleEx (some ⟨[], []⟩) outcomeFailCPU).1 =
      [Event.metric ⟨cfgEx.clusterId, "CPU", sampleEx.cpuPercent⟩] ∧
    (tick cfgEx 1000 ⟨0⟩ sampleEx (some ⟨[], []⟩) outcomeFailCPU).2 = ⟨0⟩ :=
  (submission_failure_containment.2 cfgEx 1000 ⟨0⟩ sampleEx (some ⟨[], []⟩)
    outcomeFailCPU rfl)

/-! ## Claim theorem: rate derivation -/

/-- C6: every rate field of a sample equals the corresponding end-counter
minus start-counter over the window, and is non-negative whenever that
counter pair is monotonic. -/
theorem sample_rate_derivation (cpu mem : ℚ) (d0 d1 : DiskIOCounters)
    (n0 n1 : NetIOCounters) :
    ((buildSample cpu mem d0 d1 n0 n1).diskReadRate =
        ((d1.read_bytes - d0.read_bytes : Int) : ℚ) ∧
      (buildSample cpu mem d0 d1 n0 n1).diskWriteRate =
        ((d1.write_bytes - d0.write_bytes : Int) : ℚ) ∧
      (buildSample cpu mem d0 d1 n0 n1).netSentRate =
        ((n1.bytes_sent - n0.bytes_sent : Int) : ℚ) ∧
      (buildSample cpu mem d0 d1 n0 n1).netRecvRate =
        ((n1.bytes_recv - n0.bytes_recv : Int) : ℚ))
    ∧ ((d0.read_bytes ≤ d1.read_bytes →
          0 ≤ (buildSample cpu mem d0 d1 n0 n1).diskReadRate) ∧
      (d0.write_bytes ≤ d1.write_bytes →
          0 ≤ (buildSample cpu mem d0 d1 n0 n1).diskWriteRate) ∧
      (n0.bytes_sent ≤ n1.bytes_sent →
          0 ≤ (buildSample cpu mem d0 d1 n0 n1).netSentRate) ∧
      (n0.bytes_recv ≤ n1.bytes_recv →
          0 ≤ (buildSample cpu mem d0 d1 n0 n1).netRecvRate)) := by
  refine ⟨⟨rfl, rfl, rfl, rfl⟩, ?_, ?_, ?_, ?_⟩ <;> intro h <;>
    simp only [buildSample] <;> exact_mod_cast Int.sub_nonneg.mpr h

/-- C6 witness: the derivation on concrete monotonic counters. -/
theorem sample_rate_derivation_witness :
    ((buildSample 50 50 d0Ex d1Ex n0Ex n1Ex).diskReadRate =
        ((d1Ex.read_bytes - d0Ex.read_bytes : Int) : ℚ) ∧
      (buildSample 50 50 d0Ex d1Ex n0Ex n1Ex).diskWriteRate =
        ((d1Ex.write_bytes - d0Ex.write_bytes : Int) : ℚ) ∧
      (buildSample 50 50 d0Ex d1Ex n0Ex n1Ex).netSentRate =
        ((n1Ex.bytes_sent - n0Ex.bytes_sent : Int) : ℚ) ∧
      (buildSample 50 50 d0Ex d1Ex n0Ex n1Ex).netRecvRate =
        ((n1Ex.bytes_recv - n0Ex.bytes_recv : Int) : ℚ))
    ∧ 0 ≤ (buildSample 50 50 d0Ex d1Ex n0Ex n1Ex).diskReadRate
    ∧ 0 ≤ (buildSample 50 50 d0Ex d1Ex n0Ex n1Ex).diskWriteRate
    ∧ 0 ≤ (buildSample 50 50 d0Ex d1Ex n0Ex n1Ex).netSentRate
    ∧ 0 ≤ (buildSample 50 50 d0Ex d1Ex n0Ex n1Ex).netRecvRate :=
  ⟨(sample_rate_derivation 50 50 d0Ex d1Ex n0Ex n1Ex).1,
    (sample_rate_derivation 50 50 d0Ex d1Ex n0Ex n1Ex).2.1 (by decide),
    (sample_rate_derivation 50 50 d0Ex d1Ex n0Ex n1Ex).2.2.1 (by decide),
    (sample_rate_derivation 50 50 d0Ex d1Ex n0Ex n1Ex).2.2.2.1 (by decide),
    (sample_rate_derivation 50 50 d0Ex d1Ex n0Ex n1Ex).2.2.2.2 (by decide)⟩

/-! ## Lemmas about the inventory cadence -/

lemma inventoryFires_first_true (I : ℚ) :
    ∀ (ts : List ℚ) (last : ℚ) (j : Nat) (tj : ℚ),
      (inventoryFires I last ts)[j]? = some true →
      (∀ k, k < j → (inventoryFires I last ts)[k]? = some false) →
      ts[j]? = some tj → tj - last ≥ I := by
  intro ts
  induction ts with
  | nil => intro last j tj h _ _; simp [inventoryFires] at h
  | cons t ts ih =>
    intro last j tj h hk ht
    by_cases hI : t - last ≥ I
    · simp only [inventoryFires, if_pos hI] at h hk
      cases j with
      | zero =>
        simp only [List.getElem?_cons_zero, Option.some_inj] at ht
        rw [← ht]; exact hI
      | succ j =>
        have := hk 0 (by omega)
        simp at this
    · simp only [inventoryFires, if_neg hI] at h hk
      cases j with
      | zero => simp at h
      | succ j =>
        simp only [List.getElem?_cons_succ] at h ht
        exact ih last j tj h (fun k hlt => by
          have := hk (k + 1) (by omega)
          simpa using this) ht

lemma inventoryFires_gap (I : ℚ) :
    ∀ (ts : List ℚ) (last : ℚ) (i j : Nat) (ti tj : ℚ),
      (inventoryFires I last ts)[i]? = some true →
      (inventoryFires I last ts)[j]? = some true →
      i < j →
      (∀ k, i < k → k < j → (inventoryFires I last ts)[k]? = some false) →
      ts[i]? = some ti → ts[j]? = some tj → tj - ti ≥ I := by
  intro ts
  induction ts with
  | nil => intro last i j ti tj hi _ _ _ _ _; simp [inventoryFires] at hi
  | cons t ts ih =>
    intro last i j ti tj hi hj hij hk hti htj
    by_cases hI : t - last ≥ I
    · simp only [inventoryFires, if_pos hI] at hi hj hk
      cases i with
      | zero =>
        simp only [List.getElem?_cons_zero, Option.some_inj] at hti
        obtain ⟨j', rfl⟩ : ∃ j', j = j' + 1 := ⟨j - 1, by omega⟩
        simp only [List.getElem?_cons_succ] at hj htj
        have := inventoryFires_first_true I ts t j' tj hj (fun k hlt => by
          have := hk (k + 1) (by omega) (by omega)
          simpa using this) htj
        rw [← hti]
        exact this
      | succ i' =>
        obtain ⟨j', rfl⟩ : ∃ j', j = j' + 1 := ⟨j - 1, by omega⟩
        simp only [List.getElem?_cons_succ] at hi hj hti htj
        exact ih t i' j' ti tj hi hj (by omega) (fun k h1 h2 => by
          have := hk (k + 1) (by omega) (by omega)
          simpa using this) hti htj
    · simp only [inventoryFires, if_neg hI] at hi hj hk
      cases i with
      | zero => simp at hi
      | succ i' =>
        obtain ⟨j', rfl⟩ : ∃ j', j = j' + 1 := ⟨j - 1, by omega⟩
        simp only [List.getElem?_cons_succ] at hi hj hti htj
        exact ih last i' j' ti tj hi hj (by omega) (fun k h1 h2 => by
          have := hk (k + 1) (by omega) (by omega)
          simpa using this) hti htj

/-! ## Claim theorem: inventory cadence -/

/-- C7: with `last_inventory_time` initialized one interval in the past,
the due-check fires on the first cycle; each firing records that cycle's
clock value as the new `last_inventory_time`; and between one firing and
the next at least `inventory_interval` time-units elapse. -/
theorem inventory_cadence :
    (∀ (startT t : ℚ) (ts : List ℚ), startT ≤ t →
      (inventoryFires inventory_interval (startT - inventory_interval) (t :: ts)).head? =
        some true)
    ∧ (∀ (last t : ℚ) (ts : List ℚ), t - last ≥ inventory_interval →
        inventoryFires inventory_interval last (t :: ts) =
          true :: inventoryFires inventory_interval t ts)
    ∧ (∀ (ts : List ℚ) (last : ℚ) (i j : Nat) (ti tj : ℚ),
        (inventoryFires inventory_interval last ts)[i]? = some true →
        (inventoryFires inventory_interval last ts)[j]? = some true →
        i < j →
        (∀ k, i < k → k < j →
          (inventoryFires inventory_interval last ts)[k]? = some false) →
        ts[i]? = some ti → ts[j]? = some tj → tj - ti ≥ inventory_interval) := by
  refine ⟨?_, ?_, inventoryFires_gap inventory_interval⟩
  · intro startT t ts h
    have : t - (startT - inventory_interval) ≥ inventory_interval := by linarith
    simp [inventoryFires, this]
  · intro last t ts h
    simp [inventoryFires, h]

/-- C7 witness: a concrete timestamp sequence with interval 300, clock
start 0: the first cycle fires, a firing resets the recorded time, and
two consecutive firings are at least 300 apart. -/
theorem inventory_cadence_witness :
    (inventoryFires inventory_interval ((0 : ℚ) - inventory_interval)
      ((5 : ℚ) :: [])).head? = some true
    ∧ inventoryFires inventory_interval (0 : ℚ) ((300 : ℚ) :: []) =
        true :: inventoryFires inventory_interval (300 : ℚ) []
    ∧ (400 : ℚ) - (0 : ℚ) ≥ inventory_interval := by
  refine ⟨inventory_cadence.1 0 5 [] (by norm_num),
    inventory_cadence.2.1 0 300 [] (by norm_num [inventory_interval]), ?_⟩
  have h0 : (inventoryFires inventory_interval (-300 : ℚ) [0, 100, 400])[0]? =
      some true := by norm_num [inventoryFires, inventory_interval]
  have h2 : (inventoryFires inventory_interval (-300 : ℚ) [0, 100, 400])[2]? =
      some true := by norm_num [inventoryFires, inventory_interval]
  have hmid : ∀ k, 0 < k → k < 2 →
      (inventoryFires inventory_interval (-300 : ℚ) [0, 100, 400])[k]? = some false := by
    intro k h1 h2
    have : k = 1 := by omega
    subst this
    norm_num [inventoryFires, inventory_interval]
  exact inventory_cadence.2.2 [0, 100, 400] (-300) 0 2 0 400 h0 h2 (by omega) hmid
    rfl rfl

/-! ## Claim theorem: the Event Watcher -/

/-- C8: an event whose reason is allow-listed produces no alert; any
other event produces exactly one alert whose severity is Info when the
event type is "Normal" and Warning otherwise, and whose message embeds
the reason, involved-object kind and name, and the event message. -/
theorem event_watcher_filter (cid : Int) (e : V1Event) :
    (e.reason ∈ routineReasons → processEvent cid e = none)
    ∧ (e.reason ∉ routineReasons →
        processEvent cid e = some
          { clusterId := cid,
            severity := if e.type = "Normal" then Severity.Info else Severity.Warning,
            message := "K8s Event: " ++ e.reason ++ " on " ++ e.involved_object.kind ++
              "/" ++ e.involved_object.name ++ " - " ++ e.message }) := by
  constructor
  · intro h
    simp [processEvent, h]
  · intro h
    simp [processEvent, h]

/-- C8 witness: a "SuccessfulCreate" event is suppressed; a "Failed"
event of type "Warning" yields one Warning alert embedding its text. -/
theorem event_watcher_filter_witness :
    processEvent 7 evCreate = none
    ∧ processEvent 7 evFailed = some
        { clusterId := 7,
          severity := if evFailed.type = "Normal" then Severity.Info else Severity.Warning,
          message := "K8s Event: " ++ evFailed.reason ++ " on " ++
            evFailed.involved_object.kind ++ "/" ++ evFailed.involved_object.name ++
            " - " ++ evFailed.message } :=
  ⟨(event_watcher_filter 7 evCreate).1 (by decide),
   (event_watcher_filter 7 evFailed).2 (by decide)⟩

/-! ## Lemmas about the Inventory Collector -/

lemma nodeDto_status (n : V1Node) (d : NodeInfo) (h : nodeDto n = some d) :
    n.conditions.getLast? = some d.status := by
  rw [nodeDto, Option.map_eq_some'] at h
  obtain ⟨c, hc, rfl⟩ := h
  simpa using hc

lemma nodesDto_forall2 :
    ∀ (l : List V1Node) (ds : List NodeInfo), nodesDto l = some ds →
      List.Forall₂ (fun (n : V1Node) (d : NodeInfo) =>
        n.conditions.getLast? = some d.status) l ds := by
  intro l
  induction l with
  | nil =>
    intro ds h
    simp only [nodesDto, Option.some_inj] at h
    rw [← h]
    exact List.Forall₂.nil
  | cons n rest ih =>
    intro ds h
    simp only [nodesDto] at h
    cases h1 : nodeDto n <;> rw [h1] at h
    · simp at h
    · cases h2 : nodesDto rest <;> rw [h2] at h
      · simp at h
      · simp only [Option.some_inj] at h
        rw [← h]
        exact List.Forall₂.cons (nodeDto_status n _ h1) (ih _ h2)

lemma podDto_requests (p : V1Pod) (d : PodInfo) (h : podDto p = some d) :
    d.cpuRequest = 0 ∧ d.memoryRequest = 0 := by
  rw [podDto, Option.map_eq_some'] at h
  obtain ⟨img, _, rfl⟩ := h
  exact ⟨rfl, rfl⟩

lemma podsDto_eq :
    ∀ (l : List V1Pod) (ds : List PodInfo), podsDto l = some ds →
      ds = l.filterMap podDto := by
  intro l
  induction l with
  | nil =>
    intro ds h
    simp only [podsDto, Option.some_inj] at h
    rw [← h]
    rfl
  | cons p rest ih =>
    intro ds h
    simp only [podsDto] at h
    cases h1 : podDto p <;> rw [h1] at h
    · simp at h
    · cases h2 : podsDto rest <;> rw [h2] at h
      · simp at h
      · simp only [Option.some_inj] at h
        rw [← h, List.filterMap_cons, h1, ih _ h2]

lemma allNamespacePods_eq (podsOf : String → List V1Pod) :
    ∀ (nss : List String) (ds : List PodInfo), allNamespacePods podsOf nss = some ds →
      ds = nss.flatMap (fun ns => (podsOf ns).filterMap podDto) := by
  intro nss
  induction nss with
  | nil =>
    intro ds h
    simp only [allNamespacePods, Option.some_inj] at h
    rw [← h]
    rfl
  | cons ns rest ih =>
    intro ds h
    simp only [allNamespacePods] at h
    cases h1 : podsDto (podsOf ns) <;> rw [h1] at h
    · simp at h
    · cases h2 : allNamespacePods podsOf rest <;> rw [h2] at h
      · simp at h
      · simp only [Option.some_inj] at h
        rw [← h, List.flatMap_cons, podsDto_eq _ _ h1, ih _ h2]

/-! ## Claim theorems: the Inventory Collector -/

/-- C9: in every successfully collected snapshot, each node's status is
the type of the last element of that node's conditions, and the pod
sequence is the concatenation of the per-namespace listings in namespace
iteration order, preserving each listing's internal order. -/
theorem inventory_snapshot_shape (nodes : List V1Node) (nss : List String)
    (podsOf : String → List V1Pod) (inv : InventoryPayload)
    (h : report_cluster_inventory nodes nss podsOf = some inv) :
    List.Forall₂ (fun (n : V1Node) (d : NodeInfo) =>
        n.conditions.getLast? = some d.status) nodes inv.nodes
    ∧ inv.pods = nss.flatMap (fun ns => (podsOf ns).filterMap podDto) := by
  rw [report_cluster_inventory] at h
  cases h1 : nodesDto nodes <;> rw [h1] at h
  · simp at h
  · cases h2 : allNamespacePods podsOf nss <;> rw [h2] at h
    · simp at h
    · simp only [Option.some_inj] at h
      rw [← h]
      exact ⟨nodesDto_forall2 nodes _ h1, allNamespacePods_eq podsOf nss _ h2⟩

/-- C9 witness: the shape facts on a concrete two-namespace cluster. -/
theorem inventory_snapshot_shape_witness :
    List.Forall₂ (fun (n : V1Node) (d : NodeInfo) =>
        n.conditions.getLast? = some d.status) nodesEx invEx.nodes
    ∧ invEx.pods = nssEx.flatMap (fun ns => (podsOfEx ns).filterMap podDto) :=
  inventory_snapshot_shape nodesEx nssEx podsOfEx invEx (by rfl)

/-- C10: every pod entry of every successfully submitted snapshot has
`cpuRequest = 0` and `memoryRequest = 0`, regardless of the pod's actual
resource requests. -/
theorem pod_requests_always_zero (nodes : List V1Node) (nss : List String)
    (podsOf : String → List V1Pod) (inv : InventoryPayload)
    (h : report_cluster_inventory nodes nss podsOf = some inv) :
    ∀ p ∈ inv.pods, p.cpuRequest = 0 ∧ p.memoryRequest = 0 := by
  have hpods : inv.pods = nss.flatMap (fun ns => (podsOf ns).filterMap podDto) := by
    rw [report_cluster_inventory] at h
    cases h1 : nodesDto nodes <;> rw [h1] at h
    · simp at h
    · cases h2 : allNamespacePods podsOf nss <;> rw [h2] at h
      · simp at h
      · simp only [Option.some_inj] at h
        rw [← h]
        exact allNamespacePods_eq podsOf nss _ h2
  intro p hp
  rw [hpods] at hp
  rw [List.mem_flatMap] at hp
  obtain ⟨ns, _, hp2⟩ := hp
  rw [List.mem_filterMap] at hp2
  obtain ⟨q, _, hq⟩ := hp2
  exact podDto_requests q p hq

/-- C10 witness: a concrete pod entry of the concrete snapshot. -/
theorem pod_requests_always_zero_witness :
    podEx1.cpuRequest = 0 ∧ podEx1.memoryRequest = 0 :=
  pod_requests_always_zero nodesEx nssEx podsOfEx invEx (by rfl) podEx1 (by decide)

end K8IntelAgent
